import Mathlib

/-!
Shallow embedding of the ureq sans-I/O HTTP/1.1 call driver (src/unit.rs).

The driver orchestrates an external wire-level "flow" library (out of scope
per spec section 1) through typed per-phase calls; those calls, the caller
body reader, and the transport time types are not part of src/, so they are
modelled abstractly (flow states are values of an abstract type `F` and the
flow calls are supplied by a `FlowOracle`).  Everything in `Unit` and its
methods is translated directly from src/unit.rs.

Rust methods take `&mut self` and return `Result`; a method here is a
function from the driver state to a `Step` outcome that carries the driver
state after the call both on success and on error.  A Rust panic
(`unreachable!`, a failed `expect`/`unwrap`, a failed `assert!`) is the
`crash` outcome, which aborts the program and therefore yields no successor
state.
-/

namespace Ureq

/-- Modelled from the spec: the reasons attached to timeouts (spec section 3,
`TimeoutReason` of the error module, which is not under src/). -/
inductive TimeoutReason where
  | Global
  | Resolver
  | OpenConnection
  | SendRequest
  | SendBody
  | Await100
  | RecvResponse
  | RecvBody
  deriving DecidableEq

/-- Modelled from the spec: monotonic instants of transport::time (not under
src/); `notHappening` is the point at infinity used for absent deadlines. -/
inductive Instant where
  | time (t : Nat)
  | notHappening
  deriving DecidableEq

/-- Modelled from the spec: durations of transport::time (not under src/);
`notHappening` is the infinite remaining time of an absent deadline. -/
inductive Duration where
  | exact (d : Nat)
  | notHappening
  deriving DecidableEq

/-- Modelled from the spec: adding a configured (finite) timeout duration to
an instant. -/
def Instant.plus : Instant → Nat → Instant
  | .time t, d => .time (t + d)
  | .notHappening, _ => .notHappening

/-- Modelled from the spec: remaining time from `now` until `self`
(saturating at zero once the deadline has passed, infinite when the deadline
is absent). -/
def Instant.duration_since : Instant → Instant → Duration
  | .notHappening, _ => .notHappening
  | .time t, .time n => .exact (t - n)
  | .time _, .notHappening => .exact 0

def Duration.min : Duration → Duration → Duration
  | .notHappening, d => d
  | d, .notHappening => d
  | .exact a, .exact b => .exact (Nat.min a b)

def Duration.is_zero : Duration → Bool
  | .exact 0 => true
  | _ => false

/-- Modelled from the spec: `NextTimeout` (spec section 3). -/
structure NextTimeout where
  after : Duration
  reason : TimeoutReason
  deriving DecidableEq

/-- Modelled from the spec: the redirect_auth_headers policy of AgentConfig. -/
inductive RedirectAuthHeaders where
  | never
  | sameHost
  deriving DecidableEq

/-- Modelled from the spec: the fields of AgentConfig that the driver reads. -/
structure AgentConfig where
  max_redirects : Nat
  max_response_header_size : Nat
  redirect_auth_headers : RedirectAuthHeaders
  deriving DecidableEq

/-- Modelled from the spec: optional per-phase and global timeouts, as whole
numbers of time units. -/
structure Timeouts where
  global : Option Nat
  resolve : Option Nat
  connect : Option Nat
  send_request : Option Nat
  send_body : Option Nat
  await_100 : Option Nat
  recv_response : Option Nat
  recv_body : Option Nat
  deriving DecidableEq

/-- Modelled from the spec: the error kinds surfaced by the driver (spec
section 7).  `Flow` stands for an arbitrary error bubbled up from the
wire-level flow library, identified by an abstract code. -/
inductive Error where
  | Timeout (reason : TimeoutReason)
  | Disconnected
  | LargeResponseHeader (len limit : Nat)
  | RedirectFailed
  | Flow (code : Nat)
  deriving DecidableEq

/-- Abstract stand-in for http::Uri (only carried through events). -/
abbrev Uri := String

/-- Abstract stand-in for the http::Request the driver is constructed from. -/
abbrev Req := Nat

/-- Abstract stand-in for http::HeaderName. -/
abbrev HeaderName := String

/-- Abstract stand-in for http::HeaderValue. -/
abbrev HeaderValue := String

/-- Abstract stand-in for http::Response; the driver only inspects the
status code. -/
structure Resp where
  status : Nat
  deriving DecidableEq

/-- Redirection statuses, per http::StatusCode::is_redirection (300..=399). -/
def Resp.is_redirection (r : Resp) : Bool :=
  decide (300 ≤ r.status) && decide (r.status ≤ 399)

/-- Event (src/unit.rs lines 61-71); the `end` field of `Response` is named
`end_` because `end` is reserved in Lean. -/
inductive Event where
  | Reset (must_close : Bool)
  | Prepare (uri : Uri)
  | Resolve (uri : Uri) (timeout : NextTimeout)
  | OpenConnection (uri : Uri) (timeout : NextTimeout)
  | Await100 (timeout : NextTimeout)
  | Transmit (amount : Nat) (timeout : NextTimeout)
  | AwaitInput (timeout : NextTimeout)
  | Response (response : Resp) (end_ : Bool)
  | ResponseBody (amount : Nat)
  deriving DecidableEq

/-- Input (src/unit.rs lines 74-87); byte slices are lists of byte values. -/
inductive Input where
  | Begin
  | Header (name : HeaderName) (value : HeaderValue)
  | Prepared
  | Resolved
  | ConnectionOpen
  | EndAwait100
  | Data (input : List Nat)
  deriving DecidableEq

/-- State (src/unit.rs lines 34-47): the current phase, holding the flow
object of abstract type `F`. -/
inductive State (F : Type) where
  | Begin (flow : F)
  | Prepare (flow : F)
  | Resolve (flow : F)
  | OpenConnection (flow : F)
  | SendRequest (flow : F)
  | SendBody (flow : F)
  | Await100 (flow : F)
  | RecvResponse (flow : F)
  | RecvBody (flow : F)
  | Redirect (flow : F)
  | Cleanup (flow : F)
  | Empty
  deriving DecidableEq

/-- State::name (src/unit.rs lines 678-695). -/
def State.name {F : Type} : State F → String
  | .Begin _ => "Begin"
  | .Prepare _ => "Prepare"
  | .Resolve _ => "Resolve"
  | .OpenConnection _ => "OpenConnection"
  | .SendRequest _ => "SendRequest"
  | .SendBody _ => "SendBody"
  | .Await100 _ => "Await100"
  | .RecvResponse _ => "RecvResponse"
  | .RecvBody _ => "RecvBody"
  | .Redirect _ => "Redirect"
  | .Cleanup _ => "Cleanup"
  | .Empty => "Empty (wrong!)"

/-- hoot SendRequestResult (variants used at src/unit.rs lines 205-209). -/
inductive SendRequestResult (F : Type) where
  | Await100 (flow : F)
  | SendBody (flow : F)
  | RecvResponse (flow : F)

/-- hoot Await100Result (variants used at src/unit.rs lines 389-392). -/
inductive Await100Result (F : Type) where
  | SendBody (flow : F)
  | RecvResponse (flow : F)

/-- hoot RecvResponseResult (variants used at src/unit.rs lines 363-367). -/
inductive RecvResponseResult (F : Type) where
  | RecvBody (flow : F)
  | Redirect (flow : F)
  | Cleanup (flow : F)

/-- hoot RecvBodyResult (variants used at src/unit.rs lines 547-550). -/
inductive RecvBodyResult (F : Type) where
  | Redirect (flow : F)
  | Cleanup (flow : F)

/-- Oracle for the wire-level flow library (an external collaborator, out of
scope per spec section 1): one function per flow call the driver makes, over
flow state values of abstract type `F`.  Calls that mutate the flow return
the successor flow value; `proceed` calls whose Rust counterpart returns an
`Option` that the driver unwraps return `none` for the panicking case. -/
structure FlowOracle (F : Type) where
  newFlow : Req → Except Error F
  uri : F → Uri
  header : F → HeaderName → HeaderValue → Except Error F
  proceedPrepare : F → F
  sendRequestWrite : F → Nat → Except Error (Nat × F)
  canProceedSendRequest : F → Bool
  proceedSendRequest : F → Option (SendRequestResult F)
  canProceedSendBody : F → Bool
  proceedSendBody : F → Option F
  calculateOutputOverhead : F → Nat → Except Error Nat
  consumeDirectWrite : F → Nat → Except Error F
  sendBodyWrite : F → Nat → Nat → Except Error (Nat × Nat × F)
  tryRead100 : F → List Nat → Except Error (Nat × F)
  canKeepAwait100 : F → Bool
  proceedAwait100 : F → Await100Result F
  tryResponse : F → List Nat → Except Error (Nat × Option Resp × F)
  proceedRecvResponse : F → Option (RecvResponseResult F)
  recvBodyRead : F → List Nat → Nat → Except Error (Nat × List Nat × F)
  canProceedRecvBody : F → Bool
  proceedRecvBody : F → Option (RecvBodyResult F)
  mustCloseConnection : F → Bool
  status : F → Nat
  asNewFlow : F → RedirectAuthHeaders → Except Error (Option F)

/-- Oracle for the outgoing body reader (SendBody::read / is_ended, external
to src/unit.rs): `read` is given the length of the destination slice and
returns the number of bytes produced together with the advanced reader. -/
structure BodyOracle (B : Type) where
  read : B → Nat → Except Error (Nat × B)
  is_ended : B → Bool

/-- Modelled from the spec: the caller-supplied Buffers capability, tracked
by the lengths of its tmp and output slices; the driver only feeds slice
lengths (never slice contents) back into its own control flow. -/
structure Buffers where
  tmp_len : Nat
  output_len : Nat
  deriving DecidableEq

/-- CallTimings (src/unit.rs lines 616-626). -/
structure CallTimings where
  time_call_start : Option Instant
  time_resolve : Option Instant
  time_connect : Option Instant
  time_send_request : Option Instant
  time_send_body : Option Instant
  time_await_100 : Option Instant
  time_recv_response : Option Instant
  time_recv_body : Option Instant
  deriving DecidableEq

/-- CallTimings::default(): all timestamps unset. -/
def CallTimings.empty : CallTimings :=
  { time_call_start := none, time_resolve := none, time_connect := none,
    time_send_request := none, time_send_body := none, time_await_100 := none,
    time_recv_response := none, time_recv_body := none }

/-- Option::or as used by the Rust code: the first set value wins. -/
def oor {α : Type} : Option α → Option α → Option α
  | some a, _ => some a
  | none, b => b

/-- The anchor chain used for the RecvResponse deadline, exactly the
`self.time_send_body.or(self.time_await_100).or(self.time_send_request)`
expression of src/unit.rs lines 658-661. -/
def CallTimings.recv_anchor (ct : CallTimings) : Option Instant :=
  oor (oor ct.time_send_body ct.time_await_100) ct.time_send_request

/-- CallTimings::next_timeout (src/unit.rs lines 629-675).  The result is
`none` exactly when the Rust code would unwrap a missing timestamp (a
panic); when a per-phase timeout is not configured, the
`unwrap_or((Instant::NotHappening, TimeoutReason::Global))` fallback
applies. -/
def CallTimings.next_timeout {F : Type} (ct : CallTimings) (state : State F)
    (timeouts : Timeouts) : Option (Instant × TimeoutReason) :=
  match state with
  | .Begin _ => some (.notHappening, .Global)
  | .Prepare _ => some (.notHappening, .Global)
  | .Resolve _ =>
    match timeouts.resolve with
    | none => some (.notHappening, .Global)
    | some t => ct.time_call_start.map (fun s => (s.plus t, .Resolver))
  | .OpenConnection _ =>
    match timeouts.connect with
    | none => some (.notHappening, .Global)
    | some t => ct.time_resolve.map (fun s => (s.plus t, .OpenConnection))
  | .SendRequest _ =>
    match timeouts.send_request with
    | none => some (.notHappening, .Global)
    | some t => ct.time_connect.map (fun s => (s.plus t, .SendRequest))
  | .SendBody _ =>
    match timeouts.send_body with
    | none => some (.notHappening, .Global)
    | some t => ct.time_send_request.map (fun s => (s.plus t, .SendBody))
  | .Await100 _ =>
    match timeouts.await_100 with
    | none => some (.notHappening, .Global)
    | some t => ct.time_send_request.map (fun s => (s.plus t, .Await100))
  | .RecvResponse _ =>
    match timeouts.recv_response with
    | none => some (.notHappening, .Global)
    | some t => ct.recv_anchor.map (fun s => (s.plus t, .RecvResponse))
  | .RecvBody _ =>
    match timeouts.recv_body with
    | none => some (.notHappening, .Global)
    | some t => ct.time_recv_response.map (fun s => (s.plus t, .RecvBody))
  | .Redirect _ => some (.notHappening, .Global)
  | .Cleanup _ => some (.notHappening, .Global)
  | .Empty => none

/-- Unit (src/unit.rs lines 20-30): the driver.  `B` is the body slot type
(the caller body on the send side, `PUnit` after release_body). -/
structure Unit (F B : Type) where
  config : AgentConfig
  timeouts : Timeouts
  global_start : Instant
  call_timings : CallTimings
  state : State F
  body : B
  queued_event : List Event
  redirect_count : Nat
  prev_state : String
  deriving DecidableEq

/-- Outcome of one driver method call: `ok` and `err` carry the driver state
after the call (Rust mutates through `&mut self`); `crash` models a panic,
which aborts the program. -/
inductive Step (σ α : Type) where
  | ok (s : σ) (a : α)
  | err (s : σ) (e : Error)
  | crash
  deriving DecidableEq

/-- Outcome of a call that does not mutate the driver. -/
inductive RRes (α : Type) where
  | ok (a : α)
  | err (e : Error)
  | crash
  deriving DecidableEq

variable {F B : Type}

/-- Unit::set_state (src/unit.rs lines 484-495): records the phase name for
trace dedup and stores the new state. -/
def Unit.set_state (u : Unit F B) (state : State F) : Unit F B :=
  let new_name := state.name
  let u :=
    if new_name ≠ u.prev_state then { u with prev_state := new_name } else u
  { u with state := state }

/-- Unit::global_timeout (src/unit.rs lines 497-502). -/
def Unit.global_timeout (u : Unit F B) : Instant :=
  match u.timeouts.global with
  | some t => u.global_start.plus t
  | none => .notHappening

/-- Unit::next_timeout (src/unit.rs lines 504-525). -/
def Unit.next_timeout (u : Unit F B) (now : Instant) : RRes NextTimeout :=
  match u.call_timings.next_timeout u.state u.timeouts with
  | none => .crash
  | some (call_timeout_at, reason) =>
    let call_timeout := call_timeout_at.duration_since now
    let global_timeout := u.global_timeout.duration_since now
    let timeout := call_timeout.min global_timeout
    if timeout.is_zero then
      .err (Error.Timeout (if global_timeout.is_zero then .Global else reason))
    else
      .ok { after := timeout, reason := reason }

/-- send_request (src/unit.rs lines 560-571): ask the flow to write header
bytes into the output slice. -/
def send_request (O : FlowOracle F) (flow : F) (output_len : Nat)
    (timeout : NextTimeout) : Step F Event :=
  match O.sendRequestWrite flow output_len with
  | .error e => .err flow e
  | .ok (output_used, flow) => .ok flow (Event.Transmit output_used timeout)

/-- send_body (src/unit.rs lines 573-614): direct write when the flow
reports no framing overhead, otherwise a framed write through the tmp
buffer.  The two `assert!` calls are crashes. -/
def send_body (O : FlowOracle F) (BO : BodyOracle B) (flow : F)
    (buffers : Buffers) (body : B) (timeout : NextTimeout) :
    Step (F × B) Event :=
  let input_len := buffers.tmp_len
  match O.calculateOutputOverhead flow buffers.output_len with
  | .error e => .err (flow, body) e
  | .ok overhead =>
    if input_len > overhead then
      if overhead == 0 then
        match BO.read body buffers.output_len with
        | .error e => .err (flow, body) e
        | .ok (output_used, body) =>
          match O.consumeDirectWrite flow output_used with
          | .error e => .err (flow, body) e
          | .ok flow => .ok (flow, body) (Event.Transmit output_used timeout)
      else
        let max_input := input_len - overhead
        match BO.read body max_input with
        | .error e => .err (flow, body) e
        | .ok (n, body) =>
          match O.sendBodyWrite flow n buffers.output_len with
          | .error e => .err (flow, body) e
          | .ok (input_used, output_used, flow) =>
            if input_used == n then
              .ok (flow, body) (Event.Transmit output_used timeout)
            else .crash
    else .crash

/-- Unit::poll_event_static (src/unit.rs lines 139-195): events that do not
borrow the state; `some event` means the first match produced an event. -/
def Unit.poll_event_static (O : FlowOracle F) (BO : BodyOracle B)
    (u : Unit F B) (buffers : Buffers) (timeout : NextTimeout) :
    Step (Unit F B) (Option Event) :=
  match u.state with
  | .Begin _ => .ok u (some (Event.Reset false))
  | .SendRequest flow =>
    match send_request O flow buffers.output_len timeout with
    | .ok flow ev => .ok { u with state := .SendRequest flow } (some ev)
    | .err flow e => .err { u with state := .SendRequest flow } e
    | .crash => .crash
  | .SendBody flow =>
    match send_body O BO flow buffers u.body timeout with
    | .ok (flow, body) ev =>
      .ok { u with state := .SendBody flow, body := body } (some ev)
    | .err (flow, body) e =>
      .err { u with state := .SendBody flow, body := body } e
    | .crash => .crash
  | .Await100 _ => .ok u (some (Event.Await100 timeout))
  | .RecvResponse _ => .ok u (some (Event.AwaitInput timeout))
  | .RecvBody _ => .ok u (some (Event.AwaitInput timeout))
  | .Redirect flow =>
    let must_close := O.mustCloseConnection flow
    match O.asNewFlow flow u.config.redirect_auth_headers with
    | .error e => .err u e
    | .ok (some flow) =>
      .ok (u.set_state (.Begin flow)) (some (Event.Reset must_close))
    | .ok none => .err u Error.RedirectFailed
  | .Cleanup flow => .ok u (some (Event.Reset (O.mustCloseConnection flow)))
  | .Empty => .crash
  | _ => .ok u none

/-- Unit::poll_event_maybe_proceed_state (src/unit.rs lines 197-241). -/
def Unit.poll_event_maybe_proceed_state (O : FlowOracle F) (BO : BodyOracle B)
    (u : Unit F B) (now : Instant) : Option (Unit F B) :=
  match u.state with
  | .SendRequest flow =>
    if O.canProceedSendRequest flow then
      match O.proceedSendRequest flow with
      | none => none
      | some r =>
        let u := { u with
          call_timings := { u.call_timings with time_send_request := some now } }
        some (u.set_state (match r with
          | .Await100 f => State.Await100 f
          | .SendBody f => State.SendBody f
          | .RecvResponse f => State.RecvResponse f))
    else some (u.set_state (.SendRequest flow))
  | .SendBody flow =>
    if O.canProceedSendBody flow || BO.is_ended u.body then
      match O.proceedSendBody flow with
      | none => none
      | some f =>
        let u := { u with
          call_timings := { u.call_timings with time_send_body := some now } }
        some (u.set_state (.RecvResponse f))
    else some (u.set_state (.SendBody flow))
  | .Empty => none
  | st => some (u.set_state st)

/-- Unit::poll_event_borrow (src/unit.rs lines 244-262): events borrowing
the state; `none` is the `unreachable!` arm. -/
def Unit.poll_event_borrow (O : FlowOracle F) (u : Unit F B)
    (timeout : NextTimeout) : Option Event :=
  match u.state with
  | .Prepare flow => some (Event.Prepare (O.uri flow))
  | .Resolve flow => some (Event.Resolve (O.uri flow) timeout)
  | .OpenConnection flow => some (Event.OpenConnection (O.uri flow) timeout)
  | _ => none

/-- Unit::do_poll_event for the send-side view (src/unit.rs lines 116-134). -/
def Unit.do_poll_event (O : FlowOracle F) (BO : BodyOracle B) (u : Unit F B)
    (now : Instant) (buffers : Buffers) : Step (Unit F B) Event :=
  match u.queued_event with
  | queued :: rest => .ok { u with queued_event := rest } queued
  | [] =>
    match u.next_timeout now with
    | .crash => .crash
    | .err e => .err u e
    | .ok timeout =>
      match u.poll_event_static O BO buffers timeout with
      | .crash => .crash
      | .err u e => .err u e
      | .ok u (some event) =>
        match u.poll_event_maybe_proceed_state O BO now with
        | none => .crash
        | some u => .ok u event
      | .ok u none =>
        match u.poll_event_borrow O timeout with
        | some event => .ok u event
        | none => .crash

/-- Unit::poll_event for the send-side view (src/unit.rs lines 110-114); the
trace logging has no model. -/
def Unit.poll_event (O : FlowOracle F) (BO : BodyOracle B) (u : Unit F B)
    (now : Instant) (buffers : Buffers) : Step (Unit F B) Event :=
  u.do_poll_event O BO now buffers

/-- Unit::end_await_100 (src/unit.rs lines 384-393); `none` is the failed
`expect` (panic) when the state is not Await100. -/
def Unit.end_await_100 (O : FlowOracle F) (u : Unit F B) (now : Instant) :
    Option (Unit F B) :=
  match u.state with
  | .Await100 flow =>
    let u := { u with
      call_timings := { u.call_timings with time_await_100 := some now } }
    some (u.set_state (match O.proceedAwait100 flow with
      | .SendBody f => State.SendBody f
      | .RecvResponse f => State.RecvResponse f))
  | _ => none

/-- Unit::handle_input_recv_body (src/unit.rs lines 527-557): decode body
bytes into the caller output slice, queue a ResponseBody event, and proceed
the state when the flow allows it. -/
def Unit.handle_input_recv_body (O : FlowOracle F) (u : Unit F B)
    (now : Instant) (input : List Nat) (output : List Nat) :
    Step (Unit F B) (Nat × List Nat) :=
  match u.state with
  | .RecvBody flow =>
    match O.recvBodyRead flow input output.length with
    | .error e => .err u e
    | .ok (input_used, written, flow) =>
      let output_used := written.length
      let output := written ++ output.drop output_used
      let u := { u with state := State.RecvBody flow,
                        queued_event :=
                          u.queued_event ++ [Event.ResponseBody output_used] }
      if O.canProceedRecvBody flow then
        match O.proceedRecvBody flow with
        | none => .crash
        | some r =>
          let u := { u with
            call_timings := { u.call_timings with time_recv_body := some now } }
          .ok (u.set_state (match r with
            | .Redirect f => State.Redirect f
            | .Cleanup f => State.Cleanup f)) (input_used, output)
      else .ok u (input_used, output)
  | _ => .crash

/-- Unit::handle_input for the send-side view (src/unit.rs lines 264-382). -/
def Unit.handle_input (O : FlowOracle F) (u : Unit F B) (now : Instant)
    (input : Input) (output : List Nat) : Step (Unit F B) (Nat × List Nat) :=
  match input with
  | .Begin =>
    match u.state with
    | .Begin flow =>
      let u := { u with
        call_timings := { u.call_timings with time_call_start := some now } }
      .ok (u.set_state (.Prepare flow)) (0, output)
    | _ => .crash
  | .Header name value =>
    match u.state with
    | .Prepare flow =>
      let u := { u with state := State.Empty }
      match O.header flow name value with
      | .error e => .err u e
      | .ok flow => .ok (u.set_state (.Prepare flow)) (0, output)
    | _ => .crash
  | .Prepared =>
    match u.state with
    | .Prepare flow =>
      let u := { u with
        call_timings := { u.call_timings with time_call_start := some now } }
      .ok (u.set_state (.Resolve flow)) (0, output)
    | _ => .crash
  | .Resolved =>
    match u.state with
    | .Resolve flow =>
      let u := { u with
        call_timings := { u.call_timings with time_resolve := some now } }
      .ok (u.set_state (.OpenConnection flow)) (0, output)
    | _ => .crash
  | .ConnectionOpen =>
    match u.state with
    | .OpenConnection flow =>
      let u := { u with
        call_timings := { u.call_timings with time_connect := some now } }
      .ok (u.set_state (.SendRequest (O.proceedPrepare flow))) (0, output)
    | _ => .crash
  | .EndAwait100 =>
    match u.end_await_100 O now with
    | some u => .ok u (0, output)
    | none => .crash
  | .Data data =>
    match u.state with
    | .Await100 flow =>
      if data.isEmpty then .err u Error.Disconnected
      else
        match O.tryRead100 flow data with
        | .error e => .err u e
        | .ok (input_used, flow) =>
          let u := { u with state := State.Await100 flow }
          if O.canKeepAwait100 flow then .ok u (input_used, output)
          else
            match u.end_await_100 O now with
            | some u => .ok u (input_used, output)
            | none => .crash
    | .RecvResponse flow =>
      if data.isEmpty then .err u Error.Disconnected
      else if data.length > u.config.max_response_header_size then
        .err u (Error.LargeResponseHeader data.length
          u.config.max_response_header_size)
      else
        match O.tryResponse flow data with
        | .error e => .err u e
        | .ok (input_used, maybe_response, flow) =>
          match maybe_response with
          | none => .ok { u with state := State.RecvResponse flow }
              (input_used, output)
          | some response =>
            let u := { u with state := State.RecvResponse flow }
            let u :=
              if response.is_redirection then
                { u with redirect_count := u.redirect_count + 1 }
              else u
            let end_ : Bool :=
              if response.is_redirection then
                decide (u.redirect_count ≥ u.config.max_redirects)
              else true
            let u := { u with
              queued_event := u.queued_event ++ [Event.Response response end_] }
            match O.proceedRecvResponse flow with
            | none => .crash
            | some r =>
              let u := { u with call_timings :=
                { u.call_timings with time_recv_response := some now } }
              .ok (u.set_state (match r with
                | .RecvBody f => State.RecvBody f
                | .Redirect f => State.Redirect f
                | .Cleanup f => State.Cleanup f)) (input_used, output)
    | .RecvBody _ => u.handle_input_recv_body O now data output
    | _ => .ok u (0, output)

/-- Unit::release_body (src/unit.rs lines 395-407): drop the body slot,
preserve everything else. -/
def Unit.release_body (u : Unit F B) : Unit F PUnit :=
  { config := u.config, timeouts := u.timeouts, global_start := u.global_start,
    call_timings := u.call_timings, state := u.state, body := PUnit.unit,
    queued_event := u.queued_event, redirect_count := u.redirect_count,
    prev_state := u.prev_state }

/-- Unit::new (src/unit.rs lines 90-108). -/
def Unit.new (O : FlowOracle F) (config : AgentConfig) (timeouts : Timeouts)
    (global_start : Instant) (request : Req) (body : B) :
    Except Error (Unit F B) :=
  match O.newFlow request with
  | .error e => .error e
  | .ok flow =>
    .ok { config := config, timeouts := timeouts,
          global_start := global_start,
          call_timings := CallTimings.empty, state := State.Begin flow,
          body := body, queued_event := [], redirect_count := 0,
          prev_state := "" }

/-- Unit::do_poll_event for the receive-side view Unit<()> (src/unit.rs
lines 450-468). -/
def Unit.do_poll_event_recv (O : FlowOracle F) (u : Unit F PUnit)
    (now : Instant) : Step (Unit F PUnit) Event :=
  match u.queued_event with
  | queued :: rest => .ok { u with queued_event := rest } queued
  | [] =>
    match u.next_timeout now with
    | .crash => .crash
    | .err e => .err u e
    | .ok timeout =>
      match u.state with
      | .RecvBody _ => .ok u (Event.AwaitInput timeout)
      | .Cleanup flow => .ok u (Event.Reset (O.mustCloseConnection flow))
      | .Redirect flow => .ok u (Event.Reset (O.mustCloseConnection flow))
      | _ => .crash

/-- Unit::poll_event for the receive-side view (src/unit.rs lines 444-448). -/
def Unit.poll_event_recv (O : FlowOracle F) (u : Unit F PUnit)
    (now : Instant) : Step (Unit F PUnit) Event :=
  u.do_poll_event_recv O now

/-- Unit::handle_input for the receive-side view Unit<()> (src/unit.rs
lines 470-480); any input other than Data is `unreachable!`. -/
def Unit.handle_input_recv (O : FlowOracle F) (u : Unit F PUnit)
    (now : Instant) (input : Input) (output : List Nat) :
    Step (Unit F PUnit) (Nat × List Nat) :=
  match input with
  | .Data data => u.handle_input_recv_body O now data output
  | _ => .crash

/-- The two views of the driver: the send-side `Unit F B` holding the
outgoing body, and the receive-side `Unit F PUnit` obtained by
release_body. -/
inductive Driver (F B : Type) where
  | send (u : Unit F B)
  | recv (u : Unit F PUnit)

def Driver.stateOf : Driver F B → State F
  | .send u => u.state
  | .recv u => u.state

def Driver.timingsOf : Driver F B → CallTimings
  | .send u => u.call_timings
  | .recv u => u.call_timings

def Driver.timeoutsOf : Driver F B → Timeouts
  | .send u => u.timeouts
  | .recv u => u.timeouts

def Driver.configOf : Driver F B → AgentConfig
  | .send u => u.config
  | .recv u => u.config

def Driver.rcOf : Driver F B → Nat
  | .send u => u.redirect_count
  | .recv u => u.redirect_count

def Driver.queueOf : Driver F B → List Event
  | .send u => u.queued_event
  | .recv u => u.queued_event

/-- One public call on the driver, successful or failed (a panicking call
aborts the program and produces no successor state). -/
inductive DStep (O : FlowOracle F) (BO : BodyOracle B) :
    Driver F B → Driver F B → Prop where
  | poll_ok (u u' : Unit F B) (now : Instant) (buffers : Buffers)
      (ev : Event) :
      u.do_poll_event O BO now buffers = .ok u' ev →
      DStep O BO (.send u) (.send u')
  | poll_err (u u' : Unit F B) (now : Instant) (buffers : Buffers)
      (e : Error) :
      u.do_poll_event O BO now buffers = .err u' e →
      DStep O BO (.send u) (.send u')
  | input_ok (u u' : Unit F B) (now : Instant) (inp : Input)
      (output : List Nat) (r : Nat × List Nat) :
      u.handle_input O now inp output = .ok u' r →
      DStep O BO (.send u) (.send u')
  | input_err (u u' : Unit F B) (now : Instant) (inp : Input)
      (output : List Nat) (e : Error) :
      u.handle_input O now inp output = .err u' e →
      DStep O BO (.send u) (.send u')
  | release (u : Unit F B) : DStep O BO (.send u) (.recv u.release_body)
  | rpoll_ok (u u' : Unit F PUnit) (now : Instant) (ev : Event) :
      Unit.do_poll_event_recv O u now = .ok u' ev →
      DStep O BO (.recv u) (.recv u')
  | rpoll_err (u u' : Unit F PUnit) (now : Instant) (e : Error) :
      Unit.do_poll_event_recv O u now = .err u' e →
      DStep O BO (.recv u) (.recv u')
  | rinput_ok (u u' : Unit F PUnit) (now : Instant) (inp : Input)
      (output : List Nat) (r : Nat × List Nat) :
      Unit.handle_input_recv O u now inp output = .ok u' r →
      DStep O BO (.recv u) (.recv u')
  | rinput_err (u u' : Unit F PUnit) (now : Instant) (inp : Input)
      (output : List Nat) (e : Error) :
      Unit.handle_input_recv O u now inp output = .err u' e →
      DStep O BO (.recv u) (.recv u')

/-- Driver states reachable in a run: constructed by Unit::new and then an
arbitrary sequence of public calls. -/
inductive Reach (O : FlowOracle F) (BO : BodyOracle B) : Driver F B → Prop where
  | init (config : AgentConfig) (timeouts : Timeouts)
      (global_start : Instant) (request : Req) (body : B) (u : Unit F B) :
      Unit.new O config timeouts global_start request body = .ok u →
      Reach O BO (.send u)
  | step (d d' : Driver F B) :
      Reach O BO d → DStep O BO d d' → Reach O BO d'

@[simp] theorem set_state_state (u : Unit F B) (s : State F) :
    (u.set_state s).state = s := by
  simp only [Unit.set_state]

@[simp] theorem set_state_call_timings (u : Unit F B) (s : State F) :
    (u.set_state s).call_timings = u.call_timings := by
  simp only [Unit.set_state]
  split <;> rfl

@[simp] theorem set_state_queued_event (u : Unit F B) (s : State F) :
    (u.set_state s).queued_event = u.queued_event := by
  simp only [Unit.set_state]
  split <;> rfl

@[simp] theorem set_state_redirect_count (u : Unit F B) (s : State F) :
    (u.set_state s).redirect_count = u.redirect_count := by
  simp only [Unit.set_state]
  split <;> rfl

@[simp] theorem set_state_config (u : Unit F B) (s : State F) :
    (u.set_state s).config = u.config := by
  simp only [Unit.set_state]
  split <;> rfl

@[simp] theorem set_state_timeouts (u : Unit F B) (s : State F) :
    (u.set_state s).timeouts = u.timeouts := by
  simp only [Unit.set_state]
  split <;> rfl

@[simp] theorem set_state_global_start (u : Unit F B) (s : State F) :
    (u.set_state s).global_start = u.global_start := by
  simp only [Unit.set_state]
  split <;> rfl

@[simp] theorem set_state_body (u : Unit F B) (s : State F) :
    (u.set_state s).body = u.body := by
  simp only [Unit.set_state]
  split <;> rfl

@[simp] theorem oor_isSome {α : Type} (a b : Option α) :
    (oor a b).isSome = (a.isSome || b.isSome) := by
  cases a <;> simp [oor]

/-- A property of the post-call driver state holding for every non-panicking
outcome. -/
def Step.keeps {σ α : Type} (P : σ → Prop) : Step σ α → Prop
  | .ok s _ => P s
  | .err s _ => P s
  | .crash => True

@[simp] theorem keeps_ok {σ α : Type} (P : σ → Prop) (s : σ) (a : α) :
    (Step.ok s a).keeps P = P s := rfl

@[simp] theorem keeps_err {σ α : Type} (P : σ → Prop) (s : σ) (e : Error) :
    (Step.err (α := α) s e).keeps P = P s := rfl

@[simp] theorem keeps_crash {σ α : Type} (P : σ → Prop) :
    (Step.crash (σ := σ) (α := α)).keeps P = True := rfl

/-- A deterministic flow oracle over Nat flow tokens used for concrete runs:
the request needs no 100-continue, the first response is a complete 302
redirection, and the response body decodes to nothing. -/
def Oc : FlowOracle Nat where
  newFlow _ := .ok 0
  uri _ := "u"
  header f _ _ := .ok f
  proceedPrepare f := f
  sendRequestWrite f _ := .ok (10, f)
  canProceedSendRequest _ := true
  proceedSendRequest _ := some (.RecvResponse 0)
  canProceedSendBody _ := true
  proceedSendBody _ := some 0
  calculateOutputOverhead _ _ := .ok 0
  consumeDirectWrite f _ := .ok f
  sendBodyWrite _ n _ := .ok (n, n, 0)
  tryRead100 f d := .ok (d.length, f)
  canKeepAwait100 _ := false
  proceedAwait100 _ := .RecvResponse 0
  tryResponse _ d := .ok (d.length, some { status := 302 }, 1)
  proceedRecvResponse _ := some (.Cleanup 2)
  recvBodyRead f _ _ := .ok (0, [], f)
  canProceedRecvBody _ := false
  proceedRecvBody _ := some (.Cleanup 3)
  mustCloseConnection _ := false
  status _ := 302
  asNewFlow _ _ := .ok none

/-- A concrete body reader that is already at its end. -/
def BOc : BodyOracle Nat where
  read b _ := .ok (0, b)
  is_ended _ := true

/-- Concrete configuration with max_redirects = 0. -/
def cexConfig : AgentConfig :=
  { max_redirects := 0, max_response_header_size := 1000,
    redirect_auth_headers := .never }

/-- Concrete timeouts: only recv_response is configured. -/
def cexTimeouts : Timeouts :=
  { global := none, resolve := none, connect := none, send_request := none,
    send_body := none, await_100 := none, recv_response := some 7,
    recv_body := none }

def cexBuffers : Buffers := { tmp_len := 100, output_len := 50 }

/-- The driver state after a non-panicking step (used to name the states of
a concrete run). -/
def afterStep {σ α : Type} (s : Step σ α) (d : σ) : σ :=
  match s with
  | .ok s _ => s
  | .err s _ => s
  | .crash => d

/-- The freshly constructed driver of the concrete run. -/
def cexU0 : Unit Nat Nat :=
  { config := cexConfig, timeouts := cexTimeouts,
    global_start := Instant.time 0, call_timings := CallTimings.empty,
    state := State.Begin 0, body := 0, queued_event := [],
    redirect_count := 0, prev_state := "" }

def cexU1 : Unit Nat Nat :=
  afterStep (cexU0.handle_input Oc (Instant.time 0) Input.Begin []) cexU0

def cexU2 : Unit Nat Nat :=
  afterStep (cexU1.handle_input Oc (Instant.time 0) Input.Prepared []) cexU1

def cexU3 : Unit Nat Nat :=
  afterStep (cexU2.handle_input Oc (Instant.time 0) Input.Resolved []) cexU2

def cexU4 : Unit Nat Nat :=
  afterStep (cexU3.handle_input Oc (Instant.time 0) Input.ConnectionOpen []) cexU3

def cexU5 : Unit Nat Nat :=
  afterStep (cexU4.do_poll_event Oc BOc (Instant.time 0) cexBuffers) cexU4

def cexU6 : Unit Nat Nat :=
  afterStep (cexU5.handle_input Oc (Instant.time 1) (Input.Data [1]) []) cexU5

theorem reach_cexU0 : Reach Oc BOc (Driver.send cexU0) :=
  Reach.init _ _ _ _ _ _ (show
    Unit.new Oc cexConfig cexTimeouts (Instant.time 0) 0 0 =
      Except.ok cexU0 from rfl)

theorem reach_cexU1 : Reach Oc BOc (Driver.send cexU1) :=
  Reach.step _ _ reach_cexU0 (DStep.input_ok _ _ _ _ _ _ (show
    cexU0.handle_input Oc (Instant.time 0) Input.Begin [] =
      Step.ok cexU1 (0, []) from rfl))

theorem reach_cexU2 : Reach Oc BOc (Driver.send cexU2) :=
  Reach.step _ _ reach_cexU1 (DStep.input_ok _ _ _ _ _ _ (show
    cexU1.handle_input Oc (Instant.time 0) Input.Prepared [] =
      Step.ok cexU2 (0, []) from rfl))

theorem reach_cexU3 : Reach Oc BOc (Driver.send cexU3) :=
  Reach.step _ _ reach_cexU2 (DStep.input_ok _ _ _ _ _ _ (show
    cexU2.handle_input Oc (Instant.time 0) Input.Resolved [] =
      Step.ok cexU3 (0, []) from rfl))

theorem reach_cexU4 : Reach Oc BOc (Driver.send cexU4) :=
  Reach.step _ _ reach_cexU3 (DStep.input_ok _ _ _ _ _ _ (show
    cexU3.handle_input Oc (Instant.time 0) Input.ConnectionOpen [] =
      Step.ok cexU4 (0, []) from rfl))

theorem reach_cexU5 : Reach Oc BOc (Driver.send cexU5) :=
  Reach.step _ _ reach_cexU4 (DStep.poll_ok _ _ _ _ _ (show
    cexU4.do_poll_event Oc BOc (Instant.time 0) cexBuffers =
      Step.ok cexU5 (Event.Transmit 10
        { after := Duration.notHappening, reason := TimeoutReason.Global })
      from rfl))

theorem reach_cexU6 : Reach Oc BOc (Driver.send cexU6) :=
  Reach.step _ _ reach_cexU5 (DStep.input_ok _ _ _ _ _ _ (show
    cexU5.handle_input Oc (Instant.time 1) (Input.Data [1]) [] =
      Step.ok cexU6 (1, []) from rfl))

example : cexU5.state = State.RecvResponse 0 := by decide
example : cexU5.call_timings.time_send_request = some (Instant.time 0) := by decide
example : cexU6.redirect_count = 1 := by decide
example : cexU6.config.max_redirects = 0 := by decide
example : cexU6.state = State.Cleanup 2 := by decide
example : cexU6.queued_event = [Event.Response { status := 302 } true] := by decide

/-- C8: release_body preserves config, timeouts, global_start, call_timings,
the current phase, the deferred event queue, redirect_count and the previous
phase name; only the body slot is dropped. -/
theorem C8_release_body_preserves (u : Unit F B) :
    u.release_body.config = u.config ∧
    u.release_body.timeouts = u.timeouts ∧
    u.release_body.global_start = u.global_start ∧
    u.release_body.call_timings = u.call_timings ∧
    u.release_body.state = u.state ∧
    u.release_body.queued_event = u.queued_event ∧
    u.release_body.redirect_count = u.redirect_count ∧
    u.release_body.prev_state = u.prev_state :=
  ⟨rfl, rfl, rfl, rfl, rfl, rfl, rfl, rfl⟩

/-- C5: when the deferred event queue is non-empty, poll_event in both the
send-side and the receive-side view returns the front queued event and only
pops it, before any timeout computation or fresh event synthesis (the result
does not depend on the timeout configuration or the current phase at all). -/
theorem C5_queued_event_first (O : FlowOracle F) (BO : BodyOracle B)
    (u : Unit F B) (v : Unit F PUnit) (now : Instant) (buffers : Buffers)
    (e : Event) (rest : List Event)
    (hu : u.queued_event = e :: rest) (hv : v.queued_event = e :: rest) :
    u.do_poll_event O BO now buffers =
      Step.ok { u with queued_event := rest } e ∧
    Unit.do_poll_event_recv O v now =
      Step.ok { v with queued_event := rest } e := by
  constructor
  · simp [Unit.do_poll_event, hu]
  · simp [Unit.do_poll_event_recv, hv]

def wQueuedSend : Unit Nat Nat :=
  { cexU0 with queued_event := [Event.ResponseBody 3, Event.Reset false] }

def wQueuedRecv : Unit Nat PUnit :=
  { config := cexConfig, timeouts := cexTimeouts,
    global_start := Instant.time 0, call_timings := CallTimings.empty,
    state := State.RecvBody 0, body := PUnit.unit,
    queued_event := [Event.ResponseBody 3, Event.Reset false],
    redirect_count := 0, prev_state := "RecvBody" }

theorem C5_queued_event_first_witness :
    wQueuedSend.do_poll_event Oc BOc (Instant.time 0) cexBuffers =
      Step.ok { wQueuedSend with queued_event := [Event.Reset false] }
        (Event.ResponseBody 3) ∧
    Unit.do_poll_event_recv Oc wQueuedRecv (Instant.time 0) =
      Step.ok { wQueuedRecv with queued_event := [Event.Reset false] }
        (Event.ResponseBody 3) :=
  C5_queued_event_first Oc BOc wQueuedSend wQueuedRecv (Instant.time 0)
    cexBuffers (Event.ResponseBody 3) [Event.Reset false] rfl rfl

/-- C2 (amended): in Await100 and RecvResponse, handle_input with empty Data
returns the Disconnected error and leaves the driver (in particular the
phase) unchanged.  In RecvBody the code performs no such check (see the
counterexample). -/
theorem C2_empty_data_disconnected (O : FlowOracle F) (u : Unit F B)
    (now : Instant) (output : List Nat)
    (h : (∃ f, u.state = State.Await100 f) ∨
         (∃ f, u.state = State.RecvResponse f)) :
    u.handle_input O now (.Data []) output = Step.err u Error.Disconnected := by
  rcases h with ⟨f, hf⟩ | ⟨f, hf⟩ <;> simp [Unit.handle_input, hf]

theorem C2_empty_data_disconnected_witness :
    Unit.handle_input Oc { cexU0 with state := State.Await100 0 }
      (Instant.time 0) (Input.Data []) [] =
      Step.err { cexU0 with state := State.Await100 0 } Error.Disconnected :=
  C2_empty_data_disconnected Oc { cexU0 with state := State.Await100 0 }
    (Instant.time 0) [] (Or.inl ⟨0, rfl⟩)

/-- A driver sitting in RecvBody, used to exercise the empty-Data path. -/
def cexRecvBody : Unit Nat Nat :=
  { config := cexConfig, timeouts := cexTimeouts,
    global_start := Instant.time 0, call_timings := CallTimings.empty,
    state := State.RecvBody 0, body := 0, queued_event := [],
    redirect_count := 0, prev_state := "RecvBody" }

def cexRecvBody' : Unit Nat Nat :=
  afterStep (cexRecvBody.handle_input Oc (Instant.time 0) (Input.Data []) [])
    cexRecvBody

/-- C2 counterexample: in phase RecvBody, handle_input with empty Data does
NOT return the Disconnected error; the empty slice is passed to the flow
read, a ResponseBody event with amount 0 is queued, and the call succeeds
with 0 consumed bytes. -/
theorem C2_recv_body_counterexample :
    cexRecvBody.state = State.RecvBody 0 ∧
    cexRecvBody.handle_input Oc (Instant.time 0) (Input.Data []) [] =
      Step.ok cexRecvBody' (0, []) ∧
    cexRecvBody'.queued_event = [Event.ResponseBody 0] ∧
    Step.ok cexRecvBody' ((0 : Nat), ([] : List Nat)) ≠
      Step.err cexRecvBody Error.Disconnected := by
  refine ⟨rfl, rfl, rfl, ?_⟩
  decide

/-- True exactly for Input::Data. -/
def Input.is_data : Input → Bool
  | .Data _ => true
  | _ => false

/-- True exactly for the phases in which handle_input consumes Data. -/
def State.is_data_phase : State F → Bool
  | .Await100 _ => true
  | .RecvResponse _ => true
  | .RecvBody _ => true
  | _ => false

/-- C7: a successful handle_input whose input is not Data returns 0 consumed
bytes and leaves the caller output buffer untouched; and Data received in a
phase other than Await100, RecvResponse, RecvBody is silently ignored: the
call returns 0, does not write output, and leaves the whole driver (in
particular the phase) unchanged. -/
theorem C7_frame_non_data (O : FlowOracle F) (u v : Unit F B) (now : Instant)
    (input : Input) (data : List Nat) (output : List Nat)
    (u' : Unit F B) (r : Nat × List Nat)
    (h1 : input.is_data = false)
    (h2 : u.handle_input O now input output = Step.ok u' r)
    (h3 : v.state.is_data_phase = false) :
    r = (0, output) ∧
    v.handle_input O now (.Data data) output = Step.ok v (0, output) := by
  constructor
  · cases input with
    | Data d => simp [Input.is_data] at h1
    | Begin =>
      simp only [Unit.handle_input] at h2
      split at h2 <;> simp_all
    | Header name value =>
      simp only [Unit.handle_input] at h2
      split at h2 <;> (try split at h2) <;> simp_all
    | Prepared =>
      simp only [Unit.handle_input] at h2
      split at h2 <;> simp_all
    | Resolved =>
      simp only [Unit.handle_input] at h2
      split at h2 <;> simp_all
    | ConnectionOpen =>
      simp only [Unit.handle_input] at h2
      split at h2 <;> simp_all
    | EndAwait100 =>
      simp only [Unit.handle_input] at h2
      split at h2 <;> simp_all
  · clear h1 h2
    cases hs : v.state <;> rw [hs] at h3 <;>
      simp only [State.is_data_phase] at h3 <;>
      first
        | exact absurd h3 (by decide)
        | simp [Unit.handle_input, hs]

theorem C7_frame_non_data_witness :
    ((0 : Nat), ([] : List Nat)) = ((0 : Nat), ([] : List Nat)) ∧
    Unit.handle_input Oc cexU1 (Instant.time 0) (Input.Data [7]) [] =
      Step.ok cexU1 (0, []) :=
  C7_frame_non_data Oc cexU0 cexU1 (Instant.time 0) Input.Begin [7] []
    cexU1 (0, []) rfl rfl rfl

/-- C10: a successful handle_input with Data in phase RecvBody returns the
number of input bytes the flow consumed and queues exactly one ResponseBody
event carrying the number of decoded output bytes, even when that number is
zero. -/
theorem C10_recv_body_event (O : FlowOracle F) (u : Unit F B) (now : Instant)
    (data output : List Nat) (f f2 : F) (input_used : Nat)
    (written : List Nat) (u' : Unit F B) (res : Nat × List Nat)
    (hs : u.state = State.RecvBody f)
    (hr : O.recvBodyRead f data output.length =
      Except.ok (input_used, written, f2))
    (hok : u.handle_input O now (.Data data) output = Step.ok u' res) :
    res.1 = input_used ∧
    u'.queued_event = u.queued_event ++ [Event.ResponseBody written.length] := by
  simp only [Unit.handle_input, hs] at hok
  simp only [Unit.handle_input_recv_body, hs, hr] at hok
  split at hok
  · split at hok
    · exact absurd hok (by simp)
    · rename_i r heq
      simp only [Step.ok.injEq] at hok
      obtain ⟨hu, hres⟩ := hok
      subst hu
      subst hres
      constructor
      · rfl
      · simp
  · simp only [Step.ok.injEq] at hok
    obtain ⟨hu, hres⟩ := hok
    subst hu
    subst hres
    constructor
    · rfl
    · simp

theorem C10_recv_body_event_witness :
    ((0 : Nat), ([] : List Nat)).1 = 0 ∧
    cexRecvBody'.queued_event =
      cexRecvBody.queued_event ++ [Event.ResponseBody 0] :=
  C10_recv_body_event Oc cexRecvBody (Instant.time 0) [5, 6] [] 0 0 0 []
    cexRecvBody' (0, []) rfl rfl rfl

/-- C9: when poll_event reaches a Redirect phase (empty queue, no timeout)
and deriving the new request fails, either because the flow yields no new
flow (RedirectFailed) or because the flow call errors, the call returns that
error and the driver state is returned unchanged: the phase is still
Redirect and redirect_count, call_timings and the deferred queue are
untouched. -/
theorem C9_redirect_failure_unchanged (O : FlowOracle F) (BO : BodyOracle B)
    (u : Unit F B) (now : Instant) (buffers : Buffers) (f : F)
    (tmo : NextTimeout)
    (hq : u.queued_event = [])
    (hs : u.state = State.Redirect f)
    (ht : u.next_timeout now = RRes.ok tmo)
    (hf : O.asNewFlow f u.config.redirect_auth_headers = Except.ok none ∨
          ∃ e, O.asNewFlow f u.config.redirect_auth_headers = Except.error e) :
    ∃ e2, u.do_poll_event O BO now buffers = Step.err u e2 ∧
      ((O.asNewFlow f u.config.redirect_auth_headers = Except.ok none ∧
        e2 = Error.RedirectFailed) ∨
       O.asNewFlow f u.config.redirect_auth_headers = Except.error e2) := by
  rcases hf with hf | ⟨e, hf⟩
  · refine ⟨Error.RedirectFailed, ?_, Or.inl ⟨hf, rfl⟩⟩
    simp [Unit.do_poll_event, hq, ht, Unit.poll_event_static, hs, hf]
  · refine ⟨e, ?_, Or.inr hf⟩
    simp [Unit.do_poll_event, hq, ht, Unit.poll_event_static, hs, hf]

/-- A driver sitting in Redirect with an empty queue and no deadlines. -/
def cexRedirect : Unit Nat Nat :=
  { config := cexConfig, timeouts := cexTimeouts,
    global_start := Instant.time 0, call_timings := CallTimings.empty,
    state := State.Redirect 0, body := 0, queued_event := [],
    redirect_count := 0, prev_state := "Redirect" }

theorem C9_redirect_failure_unchanged_witness :
    ∃ e2, cexRedirect.do_poll_event Oc BOc (Instant.time 9) cexBuffers =
      Step.err cexRedirect e2 ∧
      ((Oc.asNewFlow 0 cexRedirect.config.redirect_auth_headers =
          Except.ok none ∧ e2 = Error.RedirectFailed) ∨
       Oc.asNewFlow 0 cexRedirect.config.redirect_auth_headers =
          Except.error e2) :=
  C9_redirect_failure_unchanged Oc BOc cexRedirect (Instant.time 9) cexBuffers
    0 { after := Duration.notHappening, reason := TimeoutReason.Global }
    rfl rfl rfl (Or.inl rfl)

/-- C4: handle_input in RecvResponse on Data that completes the response:
when the status is a redirection the redirect counter is incremented and the
end flag compares the incremented counter against max_redirects, otherwise
the end flag is true; the Response event is queued, time_recv_response is
recorded, and the phase becomes RecvBody, Redirect or Cleanup as the flow
proceed result decides. -/
theorem C4_recv_response_complete (O : FlowOracle F) (u : Unit F B)
    (now : Instant) (data output : List Nat) (f f2 : F) (input_used : Nat)
    (response : Resp) (r : RecvResponseResult F)
    (hs : u.state = State.RecvResponse f)
    (hne : data.isEmpty = false)
    (hlen : ¬ data.length > u.config.max_response_header_size)
    (htr : O.tryResponse f data = Except.ok (input_used, some response, f2))
    (hpr : O.proceedRecvResponse f2 = some r) :
    ∃ u', u.handle_input O now (.Data data) output =
        Step.ok u' (input_used, output) ∧
      u'.redirect_count = (if response.is_redirection then
        u.redirect_count + 1 else u.redirect_count) ∧
      u'.queued_event = u.queued_event ++ [Event.Response response
        (if response.is_redirection then
          decide (u.redirect_count + 1 ≥ u.config.max_redirects) else true)] ∧
      u'.call_timings.time_recv_response = some now ∧
      u'.state = (match r with
        | .RecvBody g => State.RecvBody g
        | .Redirect g => State.Redirect g
        | .Cleanup g => State.Cleanup g) := by
  have hne2 : ¬ (data.isEmpty = true) := by simp [hne]
  simp only [Unit.handle_input, hs, htr, hpr, if_neg hne2, if_neg hlen]
  by_cases hred : response.is_redirection = true
  · refine ⟨_, rfl, ?_, ?_, ?_, ?_⟩ <;> (try simp [hred]) <;> (cases r <;> rfl)
  · rw [Bool.not_eq_true] at hred
    refine ⟨_, rfl, ?_, ?_, ?_, ?_⟩ <;> (try simp [hred]) <;> (cases r <;> rfl)

theorem C4_recv_response_complete_witness :
    ∃ u', cexU5.handle_input Oc (Instant.time 1) (Input.Data [1]) [] =
        Step.ok u' (1, []) ∧
      u'.redirect_count = (if (Resp.mk 302).is_redirection then
        cexU5.redirect_count + 1 else cexU5.redirect_count) ∧
      u'.queued_event = cexU5.queued_event ++ [Event.Response (Resp.mk 302)
        (if (Resp.mk 302).is_redirection then
          decide (cexU5.redirect_count + 1 ≥ cexU5.config.max_redirects)
        else true)] ∧
      u'.call_timings.time_recv_response = some (Instant.time 1) ∧
      u'.state = (match RecvBodyResult.Cleanup 2 with
        | RecvBodyResult.Redirect g => State.Redirect g
        | RecvBodyResult.Cleanup g => State.Cleanup g) := by
  have h := C4_recv_response_complete Oc cexU5 (Instant.time 1) [1] [] 0 1 1
    (Resp.mk 302) (RecvResponseResult.Cleanup 2) rfl rfl (by decide) rfl rfl
  exact h

theorem min_is_zero (d1 d2 : Duration) :
    (d1.min d2).is_zero = (d1.is_zero || d2.is_zero) := by
  cases d1 with
  | notHappening => cases d2 <;> simp [Duration.min, Duration.is_zero]
  | exact a =>
    cases d2 with
    | notHappening => simp [Duration.min, Duration.is_zero]
    | exact b =>
      cases a <;> cases b <;>
        simp [Duration.min, Duration.is_zero, Nat.succ_min_succ,
          Nat.zero_min, Nat.min_zero]

/-- When CallTimings::next_timeout attaches the Global reason, the per-phase
deadline is the NotHappening fallback (no per-phase timeout applies). -/
theorem next_timeout_global_reason (ct : CallTimings) (st : State F)
    (tms : Timeouts) (a : Instant)
    (h : ct.next_timeout st tms = some (a, TimeoutReason.Global)) :
    a = Instant.notHappening := by
  unfold CallTimings.next_timeout at h
  split at h <;> (try split at h) <;>
    simp_all [Option.map_eq_some']

/-- C3 (amended): for calls that reach the timeout computation (empty
deferred queue): when both the per-phase remaining time and the global
remaining time are positive, next_timeout returns their minimum with the
reason the phase carries; when the minimum is zero, next_timeout (and hence
poll_event, when the deferred queue is empty) fails with Timeout(r), where
r = Global exactly when the global remaining time is zero and r is the
reason carried by the phase otherwise. -/
theorem C3_next_timeout_spec (O : FlowOracle F) (BO : BodyOracle B)
    (u : Unit F B) (now : Instant) (buffers : Buffers) (a : Instant)
    (r : TimeoutReason)
    (h : u.call_timings.next_timeout u.state u.timeouts = some (a, r)) :
    ((a.duration_since now).is_zero = false →
      (u.global_timeout.duration_since now).is_zero = false →
      u.next_timeout now = RRes.ok
        { after := (a.duration_since now).min
            (u.global_timeout.duration_since now), reason := r }) ∧
    (((a.duration_since now).min
        (u.global_timeout.duration_since now)).is_zero = true →
      (u.next_timeout now = RRes.err (Error.Timeout
         (if (u.global_timeout.duration_since now).is_zero then
            TimeoutReason.Global else r)) ∧
       ((u.global_timeout.duration_since now).is_zero = true ↔
         (if (u.global_timeout.duration_since now).is_zero then
            TimeoutReason.Global else r) = TimeoutReason.Global) ∧
       (u.queued_event = [] →
         u.do_poll_event O BO now buffers = Step.err u (Error.Timeout
           (if (u.global_timeout.duration_since now).is_zero then
              TimeoutReason.Global else r))))) := by
  constructor
  · intro hc hg
    have hmin : ((a.duration_since now).min
        (u.global_timeout.duration_since now)).is_zero = false := by
      rw [min_is_zero, hc, hg]
      rfl
    simp [Unit.next_timeout, h, hmin]
  · intro hmin
    have hfail : u.next_timeout now = RRes.err (Error.Timeout
        (if (u.global_timeout.duration_since now).is_zero then
          TimeoutReason.Global else r)) := by
      simp [Unit.next_timeout, h, hmin]
    refine ⟨hfail, ?_, ?_⟩
    · by_cases hg : (u.global_timeout.duration_since now).is_zero = true
      · simp [hg]
      · rw [Bool.not_eq_true] at hg
        simp only [hg, Bool.false_eq_true, if_false]
        constructor
        · intro hcontr
          exact absurd hcontr (by simp)
        · intro hrG
          subst hrG
          have ha := next_timeout_global_reason u.call_timings u.state
            u.timeouts a h
          subst ha
          rw [min_is_zero, hg] at hmin
          simp [Instant.duration_since, Duration.is_zero] at hmin
    · intro hq
      simp [Unit.do_poll_event, hq, hfail]

/-- A driver with a queued event and an already-expired global deadline. -/
def cexQueued : Unit Nat Nat :=
  { config := cexConfig,
    timeouts := { global := some 0, resolve := none, connect := none,
                  send_request := none, send_body := none, await_100 := none,
                  recv_response := none, recv_body := none },
    global_start := Instant.time 0, call_timings := CallTimings.empty,
    state := State.Begin 0, body := 0, queued_event := [Event.Reset false],
    redirect_count := 0, prev_state := "" }

def cexQueued' : Unit Nat Nat := { cexQueued with queued_event := [] }

/-- C3 counterexample: a poll_event call with an expired global deadline but
a non-empty deferred queue does NOT fail with Timeout; it returns the queued
event, because the queue is served before the timeout computation. -/
theorem C3_queued_event_counterexample :
    (cexQueued.global_timeout.duration_since (Instant.time 5)).is_zero =
      true ∧
    cexQueued.do_poll_event Oc BOc (Instant.time 5) cexBuffers =
      Step.ok cexQueued' (Event.Reset false) ∧
    Step.ok cexQueued' (Event.Reset false) ≠
      Step.err cexQueued (Error.Timeout TimeoutReason.Global) := by
  refine ⟨rfl, rfl, ?_⟩
  decide

/-- A driver in SendBody with a 5-unit send_body timeout anchored at
time_send_request = 2 and a 100-unit global timeout. -/
def wC3 : Unit Nat Nat :=
  { config := cexConfig,
    timeouts := { global := some 100, resolve := none, connect := none,
                  send_request := none, send_body := some 5,
                  await_100 := none, recv_response := none,
                  recv_body := none },
    global_start := Instant.time 0,
    call_timings := { CallTimings.empty with
                      time_send_request := some (Instant.time 2) },
    state := State.SendBody 0, body := 0, queued_event := [],
    redirect_count := 0, prev_state := "SendBody" }

theorem C3_next_timeout_spec_witness :
    (((Instant.time 7).duration_since (Instant.time 3)).is_zero = false →
      (wC3.global_timeout.duration_since (Instant.time 3)).is_zero = false →
      wC3.next_timeout (Instant.time 3) = RRes.ok
        { after := ((Instant.time 7).duration_since (Instant.time 3)).min
            (wC3.global_timeout.duration_since (Instant.time 3)),
          reason := TimeoutReason.SendBody }) ∧
    ((((Instant.time 7).duration_since (Instant.time 3)).min
        (wC3.global_timeout.duration_since (Instant.time 3))).is_zero = true →
      (wC3.next_timeout (Instant.time 3) = RRes.err (Error.Timeout
         (if (wC3.global_timeout.duration_since (Instant.time 3)).is_zero then
            TimeoutReason.Global else TimeoutReason.SendBody)) ∧
       ((wC3.global_timeout.duration_since (Instant.time 3)).is_zero = true ↔
         (if (wC3.global_timeout.duration_since (Instant.time 3)).is_zero then
            TimeoutReason.Global else TimeoutReason.SendBody) =
           TimeoutReason.Global) ∧
       (wC3.queued_event = [] →
         wC3.do_poll_event Oc BOc (Instant.time 3) cexBuffers =
           Step.err wC3 (Error.Timeout
             (if (wC3.global_timeout.duration_since
                (Instant.time 3)).is_zero then
              TimeoutReason.Global else TimeoutReason.SendBody))))) :=
  C3_next_timeout_spec Oc BOc wC3 (Instant.time 3) cexBuffers
    (Instant.time 7) TimeoutReason.SendBody rfl

/-- Invariant for C6: whenever the phase is RecvResponse, at least one of
time_send_body, time_await_100, time_send_request is set. -/
def anchorInv (u : Unit F B) : Prop :=
  ∀ f, u.state = State.RecvResponse f →
    u.call_timings.recv_anchor.isSome = true

theorem anchorInv_end_await_100 (O : FlowOracle F) (u u' : Unit F B)
    (now : Instant) (h : u.end_await_100 O now = some u') : anchorInv u' := by
  unfold Unit.end_await_100 at h
  split at h
  · injection h with h
    subst h
    intro f hf
    simp [CallTimings.recv_anchor, oor_isSome]
  · exact absurd h (by simp)

theorem anchorInv_recv_body (O : FlowOracle F) (u : Unit F B) (now : Instant)
    (input output : List Nat) (h : anchorInv u) :
    (u.handle_input_recv_body O now input output).keeps anchorInv := by
  unfold Unit.handle_input_recv_body
  split
  · split
    · simpa using h
    · split
      · split
        · trivial
        · rename_i r hpr
          simp only [keeps_ok]
          intro f hf
          rw [set_state_state] at hf
          cases r <;> simp at hf
      · simp only [keeps_ok]
        intro f hf
        simp at hf
  · trivial

theorem anchorInv_static (O : FlowOracle F) (BO : BodyOracle B)
    (u : Unit F B) (buffers : Buffers) (timeout : NextTimeout)
    (h : anchorInv u) :
    (u.poll_event_static O BO buffers timeout).keeps anchorInv := by
  unfold Unit.poll_event_static
  split
  · simpa using h
  · split
    · simp only [keeps_ok]
      intro f hf
      simp at hf
    · simp only [keeps_err]
      intro f hf
      simp at hf
    · trivial
  · split
    · simp only [keeps_ok]
      intro f hf
      simp at hf
    · simp only [keeps_err]
      intro f hf
      simp at hf
    · trivial
  · simpa using h
  · simpa using h
  · simpa using h
  · split
    · simpa using h
    · simp only [keeps_ok]
      intro f hf
      rw [set_state_state] at hf
      simp at hf
    · simpa using h
  · simpa using h
  · trivial
  · simpa using h

theorem anchorInv_proceed (O : FlowOracle F) (BO : BodyOracle B)
    (u u' : Unit F B) (now : Instant)
    (hp : u.poll_event_maybe_proceed_state O BO now = some u')
    (h : anchorInv u) : anchorInv u' := by
  unfold Unit.poll_event_maybe_proceed_state at hp
  split at hp
  · split at hp
    · split at hp
      · exact absurd hp (by simp)
      · rename_i r hr
        injection hp with hp
        subst hp
        intro f hf
        rw [set_state_state] at hf
        cases r with
        | Await100 g => simp at hf
        | SendBody g => simp at hf
        | RecvResponse g =>
          simp [CallTimings.recv_anchor, oor_isSome]
    · injection hp with hp
      subst hp
      intro f hf
      rw [set_state_state] at hf
      simp at hf
  · split at hp
    · split at hp
      · exact absurd hp (by simp)
      · injection hp with hp
        subst hp
        intro f hf
        simp [CallTimings.recv_anchor, oor_isSome]
    · injection hp with hp
      subst hp
      intro f hf
      rw [set_state_state] at hf
      simp at hf
  · exact absurd hp (by simp)
  · rename_i st hne1 hne2 hne3
    injection hp with hp
    subst hp
    intro f hf
    rw [set_state_state] at hf
    simp only [set_state_call_timings]
    exact h f hf

theorem anchorInv_poll (O : FlowOracle F) (BO : BodyOracle B) (u : Unit F B)
    (now : Instant) (buffers : Buffers) (h : anchorInv u) :
    (u.do_poll_event O BO now buffers).keeps anchorInv := by
  unfold Unit.do_poll_event
  split
  · simp only [keeps_ok]
    intro f hf
    exact h f hf
  · split
    · trivial
    · simpa using h
    · rename_i t ht
      split
      · trivial
      · rename_i u1 e1 hst
        have hkeep := anchorInv_static O BO u buffers t h
        rw [hst] at hkeep
        simpa using hkeep
      · rename_i u1 ev hst
        have hkeep := anchorInv_static O BO u buffers t h
        rw [hst] at hkeep
        simp only [keeps_ok] at hkeep
        split
        · trivial
        · rename_i u2 hpr
          simp only [keeps_ok]
          exact anchorInv_proceed O BO u1 u2 now hpr hkeep
      · rename_i u1 hst
        have hkeep := anchorInv_static O BO u buffers t h
        rw [hst] at hkeep
        simp only [keeps_ok] at hkeep
        split
        · simpa using hkeep
        · trivial

theorem anchorInv_handle_input (O : FlowOracle F) (u : Unit F B)
    (now : Instant) (inp : Input) (output : List Nat) (h : anchorInv u) :
    (u.handle_input O now inp output).keeps anchorInv := by
  cases inp with
  | Begin =>
    simp only [Unit.handle_input]
    split
    · simp only [keeps_ok]
      intro f hf
      rw [set_state_state] at hf
      simp at hf
    · trivial
  | Header name value =>
    simp only [Unit.handle_input]
    split
    · split
      · simp only [keeps_err]
        intro f hf
        simp at hf
      · simp only [keeps_ok]
        intro f hf
        rw [set_state_state] at hf
        simp at hf
    · trivial
  | Prepared =>
    simp only [Unit.handle_input]
    split
    · simp only [keeps_ok]
      intro f hf
      rw [set_state_state] at hf
      simp at hf
    · trivial
  | Resolved =>
    simp only [Unit.handle_input]
    split
    · simp only [keeps_ok]
      intro f hf
      rw [set_state_state] at hf
      simp at hf
    · trivial
  | ConnectionOpen =>
    simp only [Unit.handle_input]
    split
    · simp only [keeps_ok]
      intro f hf
      rw [set_state_state] at hf
      simp at hf
    · trivial
  | EndAwait100 =>
    simp only [Unit.handle_input]
    split
    · rename_i u2 he
      simp only [keeps_ok]
      exact anchorInv_end_await_100 O u u2 now he
    · trivial
  | Data data =>
    simp only [Unit.handle_input]
    split
    · rename_i flow heq
      split
      · simpa using h
      · split
        · simpa using h
        · rename_i v hv
          split
          · simp only [keeps_ok]
            intro f hf
            simp at hf
          · split
            · rename_i u2 he
              simp only [keeps_ok]
              exact anchorInv_end_await_100 O _ u2 now he
            · trivial
    · rename_i flow heq
      split
      · simpa using h
      · split
        · simpa using h
        · split
          · simpa using h
          · split
            · simp only [keeps_ok]
              intro f hf
              simp only [set_state_call_timings]
              simp at hf
              exact h flow heq
            · split
              · trivial
              · rename_i r hpr
                simp only [keeps_ok]
                intro f hf
                rw [set_state_state] at hf
                cases r <;> simp at hf
    · exact anchorInv_recv_body O u now data output h
    · simpa using h

theorem anchorInv_poll_recv (O : FlowOracle F) (u : Unit F PUnit)
    (now : Instant) (h : anchorInv u) :
    (Unit.do_poll_event_recv O u now).keeps anchorInv := by
  unfold Unit.do_poll_event_recv
  split
  · simp only [keeps_ok]
    intro f hf
    exact h f hf
  · split
    · trivial
    · simpa using h
    · split <;> first | simpa using h | trivial

theorem anchorInv_handle_input_recv (O : FlowOracle F) (u : Unit F PUnit)
    (now : Instant) (inp : Input) (output : List Nat) (h : anchorInv u) :
    (Unit.handle_input_recv O u now inp output).keeps anchorInv := by
  cases inp with
  | Data data => exact anchorInv_recv_body O u now data output h
  | Begin => trivial
  | Header name value => trivial
  | Prepared => trivial
  | Resolved => trivial
  | ConnectionOpen => trivial
  | EndAwait100 => trivial

/-- The C6 invariant over both driver views. -/
def Driver.anchorInvOf (d : Driver F B) : Prop :=
  ∀ f, d.stateOf = State.RecvResponse f →
    d.timingsOf.recv_anchor.isSome = true

/-- Every reachable driver state satisfies the RecvResponse anchor
invariant: every transition into RecvResponse records one of the three
anchor timestamps, and no call ever clears a timestamp. -/
theorem reach_anchorInv (O : FlowOracle F) (BO : BodyOracle B)
    (d : Driver F B) (h : Reach O BO d) : d.anchorInvOf := by
  induction h with
  | init config timeouts global_start request body u hnew =>
    intro f hf
    unfold Unit.new at hnew
    split at hnew
    · exact absurd hnew (by simp)
    · injection hnew with hnew
      subst hnew
      simp [Driver.stateOf] at hf
  | step d d' hre hst ih =>
    cases hst with
    | poll_ok u u' now buffers ev hp =>
      have hk := anchorInv_poll O BO u now buffers (fun f hf => ih f hf)
      rw [hp] at hk
      exact fun f hf => hk f hf
    | poll_err u u' now buffers e hp =>
      have hk := anchorInv_poll O BO u now buffers (fun f hf => ih f hf)
      rw [hp] at hk
      exact fun f hf => hk f hf
    | input_ok u u' now inp output r hp =>
      have hk := anchorInv_handle_input O u now inp output (fun f hf => ih f hf)
      rw [hp] at hk
      exact fun f hf => hk f hf
    | input_err u u' now inp output e hp =>
      have hk := anchorInv_handle_input O u now inp output (fun f hf => ih f hf)
      rw [hp] at hk
      exact fun f hf => hk f hf
    | release u =>
      exact fun f hf => ih f hf
    | rpoll_ok u u' now ev hp =>
      have hk := anchorInv_poll_recv O u now (fun f hf => ih f hf)
      rw [hp] at hk
      exact fun f hf => hk f hf
    | rpoll_err u u' now e hp =>
      have hk := anchorInv_poll_recv O u now (fun f hf => ih f hf)
      rw [hp] at hk
      exact fun f hf => hk f hf
    | rinput_ok u u' now inp output r hp =>
      have hk := anchorInv_handle_input_recv O u now inp output
        (fun f hf => ih f hf)
      rw [hp] at hk
      exact fun f hf => hk f hf
    | rinput_err u u' now inp output e hp =>
      have hk := anchorInv_handle_input_recv O u now inp output
        (fun f hf => ih f hf)
      rw [hp] at hk
      exact fun f hf => hk f hf

/-- C6: for every reachable driver in phase RecvResponse with a configured
recv_response timeout, the per-phase deadline is anchored at the first set
timestamp among time_send_body, time_await_100, time_send_request (in that
order, the recv_anchor chain), and such a timestamp exists on every path
reaching RecvResponse, so CallTimings::next_timeout does not panic and
returns that anchor plus the timeout with reason RecvResponse. -/
theorem C6_recv_response_anchor (O : FlowOracle F) (BO : BodyOracle B)
    (d : Driver F B) (f : F) (t : Nat)
    (hR : Reach O BO d)
    (hs : d.stateOf = State.RecvResponse f)
    (ht : d.timeoutsOf.recv_response = some t) :
    ∃ a, d.timingsOf.recv_anchor = some a ∧
      CallTimings.next_timeout d.timingsOf d.stateOf d.timeoutsOf =
        some (a.plus t, TimeoutReason.RecvResponse) := by
  have hsome := reach_anchorInv O BO d hR f hs
  obtain ⟨a, ha⟩ := Option.isSome_iff_exists.mp hsome
  refine ⟨a, ha, ?_⟩
  rw [hs]
  simp [CallTimings.next_timeout, ht, ha]

theorem C6_recv_response_anchor_witness :
    ∃ a, (Driver.send cexU5).timingsOf.recv_anchor = some a ∧
      CallTimings.next_timeout (Driver.send cexU5).timingsOf
        (Driver.send cexU5).stateOf (Driver.send cexU5).timeoutsOf =
        some (a.plus 7, TimeoutReason.RecvResponse) :=
  C6_recv_response_anchor Oc BOc (Driver.send cexU5) 0 7 reach_cexU5 rfl rfl

theorem rc_end_await_100 (O : FlowOracle F) (u u' : Unit F B) (now : Instant)
    (h : u.end_await_100 O now = some u') :
    u'.redirect_count = u.redirect_count := by
  unfold Unit.end_await_100 at h
  split at h
  · injection h with h
    subst h
    simp
  · exact absurd h (by simp)

theorem rc_recv_body (O : FlowOracle F) (u : Unit F B) (now : Instant)
    (input output : List Nat) :
    (u.handle_input_recv_body O now input output).keeps
      (fun u' => u'.redirect_count = u.redirect_count) := by
  unfold Unit.handle_input_recv_body
  split
  · split
    · simp
    · split
      · split
        · trivial
        · simp
      · simp
  · trivial

theorem rc_static (O : FlowOracle F) (BO : BodyOracle B) (u : Unit F B)
    (buffers : Buffers) (timeout : NextTimeout) :
    (u.poll_event_static O BO buffers timeout).keeps
      (fun u' => u'.redirect_count = u.redirect_count) := by
  unfold Unit.poll_event_static
  split <;> (try split) <;> simp

theorem rc_proceed (O : FlowOracle F) (BO : BodyOracle B) (u u' : Unit F B)
    (now : Instant)
    (hp : u.poll_event_maybe_proceed_state O BO now = some u') :
    u'.redirect_count = u.redirect_count := by
  unfold Unit.poll_event_maybe_proceed_state at hp
  split at hp <;> (try split at hp) <;> (try split at hp) <;>
    first
      | (injection hp with hp; subst hp; simp)
      | exact absurd hp (by simp)

theorem rc_poll (O : FlowOracle F) (BO : BodyOracle B) (u : Unit F B)
    (now : Instant) (buffers : Buffers) :
    (u.do_poll_event O BO now buffers).keeps
      (fun u' => u'.redirect_count = u.redirect_count) := by
  unfold Unit.do_poll_event
  split
  · simp
  · split
    · trivial
    · simp
    · rename_i t ht
      split
      · trivial
      · rename_i u1 e1 hst
        have hk := rc_static O BO u buffers t
        rw [hst] at hk
        simpa using hk
      · rename_i u1 ev hst
        have hk := rc_static O BO u buffers t
        rw [hst] at hk
        simp only [keeps_ok] at hk
        split
        · trivial
        · rename_i u2 hpr
          simp only [keeps_ok]
          rw [rc_proceed O BO u1 u2 now hpr, hk]
      · rename_i u1 hst
        have hk := rc_static O BO u buffers t
        rw [hst] at hk
        simp only [keeps_ok] at hk
        split
        · simpa using hk
        · trivial

theorem rc_poll_recv (O : FlowOracle F) (u : Unit F PUnit) (now : Instant) :
    (Unit.do_poll_event_recv O u now).keeps
      (fun u' => u'.redirect_count = u.redirect_count) := by
  unfold Unit.do_poll_event_recv
  split
  · simp
  · split
    · trivial
    · simp
    · split <;> simp

theorem rc_handle_input_recv (O : FlowOracle F) (u : Unit F PUnit)
    (now : Instant) (inp : Input) (output : List Nat) :
    (Unit.handle_input_recv O u now inp output).keeps
      (fun u' => u'.redirect_count = u.redirect_count) := by
  cases inp with
  | Data data => exact rc_recv_body O u now data output
  | Begin => trivial
  | Header name value => trivial
  | Prepared => trivial
  | Resolved => trivial
  | ConnectionOpen => trivial
  | EndAwait100 => trivial

theorem rc_handle_input (O : FlowOracle F) (u : Unit F B) (now : Instant)
    (inp : Input) (output : List Nat) :
    (u.handle_input O now inp output).keeps (fun u' =>
      u'.redirect_count = u.redirect_count ∨
      (u'.redirect_count = u.redirect_count + 1 ∧
       (∃ f, u.state = State.RecvResponse f) ∧
       ∃ resp : Resp, resp.is_redirection = true ∧
         u'.queued_event = u.queued_event ++ [Event.Response resp
           (decide (u.redirect_count + 1 ≥ u.config.max_redirects))])) := by
  cases inp with
  | Begin =>
    simp only [Unit.handle_input]
    split
    · simp only [keeps_ok]
      left
      simp
    · trivial
  | Header name value =>
    simp only [Unit.handle_input]
    split
    · split
      · simp only [keeps_err]
        exact Or.inl (by simp)
      · simp only [keeps_ok]
        left
        simp
    · trivial
  | Prepared =>
    simp only [Unit.handle_input]
    split
    · simp only [keeps_ok]
      left
      simp
    · trivial
  | Resolved =>
    simp only [Unit.handle_input]
    split
    · simp only [keeps_ok]
      left
      simp
    · trivial
  | ConnectionOpen =>
    simp only [Unit.handle_input]
    split
    · simp only [keeps_ok]
      left
      simp
    · trivial
  | EndAwait100 =>
    simp only [Unit.handle_input]
    split
    · rename_i u2 he
      simp only [keeps_ok]
      left
      exact rc_end_await_100 O u u2 now he
    · trivial
  | Data data =>
    simp only [Unit.handle_input]
    split
    · split
      · exact Or.inl rfl
      · split
        · exact Or.inl rfl
        · split
          · simp only [keeps_ok]
            exact Or.inl (by simp)
          · split
            · rename_i u2 he
              simp only [keeps_ok]
              left
              have hrc := rc_end_await_100 O _ u2 now he
              exact hrc
            · trivial
    · rename_i flow heq
      split
      · exact Or.inl rfl
      · split
        · exact Or.inl rfl
        · split
          · exact Or.inl rfl
          · split
            · simp only [keeps_ok]
              exact Or.inl (by simp)
            · rename_i response hresp
              by_cases hred : response.is_redirection = true
              · simp only [hred, if_true]
                split
                · trivial
                · rename_i r hpr
                  simp only [keeps_ok]
                  refine Or.inr ⟨by simp, ⟨flow, heq⟩, response, hred, ?_⟩
                  simp
              · rw [Bool.not_eq_true] at hred
                simp only [hred, Bool.false_eq_true, if_false]
                split
                · trivial
                · simp only [keeps_ok]
                  left
                  simp
    · have hk := rc_recv_body O u now data output
      revert hk
      cases u.handle_input_recv_body O now data output with
      | ok s a =>
        intro hk
        exact Or.inl hk
      | err s e =>
        intro hk
        exact Or.inl hk
      | crash =>
        intro hk
        trivial
    · simp only [keeps_ok]
      exact Or.inl (by simp)

/-- C1 (amended): across every public driver call, redirect_count is either
unchanged, or the call was a handle_input that completed a redirection
response in RecvResponse, in which case redirect_count increments by exactly
one and the queued Response event carries
end = (redirect_count + 1 >= max_redirects); that transition (the one that
heads toward the Redirect phase) is the only writer.  The bound
redirect_count <= max_redirects of the original claim does not hold (see the
counterexample with max_redirects = 0); what holds is that a Response event
queued with end = false witnesses redirect_count < max_redirects. -/
theorem C1_redirect_count_writer (O : FlowOracle F) (BO : BodyOracle B)
    (d d' : Driver F B) (h : DStep O BO d d') :
    d'.rcOf = d.rcOf ∨
    (d'.rcOf = d.rcOf + 1 ∧
     (∃ f, d.stateOf = State.RecvResponse f) ∧
     ∃ resp : Resp, resp.is_redirection = true ∧
       d'.queueOf = d.queueOf ++ [Event.Response resp
         (decide (d.rcOf + 1 ≥ d.configOf.max_redirects))]) := by
  cases h with
  | poll_ok u u' now buffers ev hp =>
    left
    have hk := rc_poll O BO u now buffers
    rw [hp] at hk
    exact hk
  | poll_err u u' now buffers e hp =>
    left
    have hk := rc_poll O BO u now buffers
    rw [hp] at hk
    exact hk
  | input_ok u u' now inp output r hp =>
    have hk := rc_handle_input O u now inp output
    rw [hp] at hk
    exact hk
  | input_err u u' now inp output e hp =>
    have hk := rc_handle_input O u now inp output
    rw [hp] at hk
    exact hk
  | release u =>
    left
    rfl
  | rpoll_ok u u' now ev hp =>
    left
    have hk := rc_poll_recv O u now
    rw [hp] at hk
    exact hk
  | rpoll_err u u' now e hp =>
    left
    have hk := rc_poll_recv O u now
    rw [hp] at hk
    exact hk
  | rinput_ok u u' now inp output r hp =>
    left
    have hk := rc_handle_input_recv O u now inp output
    rw [hp] at hk
    exact hk
  | rinput_err u u' now inp output e hp =>
    left
    have hk := rc_handle_input_recv O u now inp output
    rw [hp] at hk
    exact hk

/-- C1 counterexample: a reachable driver state (max_redirects = 0, a single
302 response processed in a perfectly ordinary run) whose redirect_count
exceeds max_redirects, refuting the invariant redirect_count <=
max_redirects. -/
theorem C1_redirect_bound_counterexample :
    Reach Oc BOc (Driver.send cexU6) ∧
    cexU6.redirect_count = 1 ∧
    cexU6.config.max_redirects = 0 ∧
    ¬ cexU6.redirect_count ≤ cexU6.config.max_redirects :=
  ⟨reach_cexU6, rfl, rfl, by decide⟩

theorem C1_redirect_count_writer_witness :
    (Driver.send cexU6).rcOf = (Driver.send cexU5).rcOf ∨
    ((Driver.send cexU6).rcOf = (Driver.send cexU5).rcOf + 1 ∧
     (∃ f, (Driver.send cexU5).stateOf = State.RecvResponse f) ∧
     ∃ resp : Resp, resp.is_redirection = true ∧
       (Driver.send cexU6).queueOf = (Driver.send cexU5).queueOf ++
         [Event.Response resp (decide ((Driver.send cexU5).rcOf + 1 ≥
           (Driver.send cexU5).configOf.max_redirects))]) :=
  C1_redirect_count_writer Oc BOc (Driver.send cexU5) (Driver.send cexU6)
    (DStep.input_ok _ _ _ _ _ _ (show
      cexU5.handle_input Oc (Instant.time 1) (Input.Data [1]) [] =
        Step.ok cexU6 (1, []) from rfl))

end Ureq
